import Mathlib

/-
Verification of the monthly-inbox-bot pipeline core.

Shallow embedding of the stage-sequencing / idempotent-processing logic of the
repository, translated from:
  - src/monthly_pipeline_MULTISTAGE.py  (dev side: stage00_excel_to_prep,
    _move_to_done, _list_files, run_switch_stage, _sha12, _now_stamp)
  - src/stages/stage00.py               (run, its per-file copy/move loop)
  - src/state.py                        (StateStore.load, processed coercion)
  - src/state_store.py                  (StateStore.load / flush_audit_jsonl)
  - src/audit_logger.py                 (AuditLogger.flush, _norm_dir)
  - src/monthly_main.py                 (main exit codes, write_audit_record)
  - src/monthly_spec.py                 (dev side: _norm_root, _join, derived dirs)

External collaborators are modelled as parameters, exactly as the spec directs:
the Dropbox blob store is an opaque path-addressed store, so directory listings
and read results are inputs, and writes / moves / folder creations are recorded
as explicit actions in a trace; the Excel transform (process_monthly_workbook
followed by json.dumps().encode()) is an opaque function from bytes and a
source name to output bytes; hashlib-based fingerprints (_sha12) are an opaque
function from bytes to a string; timestamps (_now_stamp, utc_stamp) are an
opaque supply of strings indexed by call position.  Bytes are modelled as
List Nat.  All functions are total, which also witnesses the Python-level
"never raises" facts for the code paths whose bodies are fully guarded.
-/

/-! ## Python string primitives used by the pipeline, at the character level -/

/-- Python str.lower restricted to the ASCII case mapping used by filenames. -/
def pyLower (s : String) : String :=
  String.mk (s.toList.map Char.toLower)

/-- Python-style whitespace test used by str.strip. -/
def isPySpace (c : Char) : Bool :=
  c = ' ' || c = '\t' || c = '\n' || c = '\r' || c = '\x0b' || c = '\x0c'

/-- Python str.strip with no argument: drop leading and trailing whitespace. -/
def pyStrip (s : String) : String :=
  String.mk (((s.toList.dropWhile isPySpace).reverse.dropWhile isPySpace).reverse)

/-- Python s.endswith(pat) on the character sequence. -/
def pyEndsWith (s pat : String) : Bool :=
  pat.toList.isSuffixOf s.toList

/-- Python s.startswith(pat) on the character sequence. -/
def pyStartsWith (s pat : String) : Bool :=
  pat.toList.isPrefixOf s.toList

/-- Python s.rstrip("/"): drop every trailing slash. -/
def rstripSlash (s : String) : String :=
  String.mk ((s.toList.reverse.dropWhile (fun c => c = '/')).reverse)

/-- Splitting a character list on a separator character, Python str.split
style: the result always has one more piece than there are separators. -/
def splitChars (sep : Char) : List Char → List (List Char)
  | [] => [[]]
  | c :: rest =>
    let r := splitChars sep rest
    if c = sep then [] :: r
    else
      match r with
      | [] => [[c]]
      | piece :: more => (c :: piece) :: more

/-- Python src_path.split("/")[-1]: the last path component. -/
def lastComponent (p : String) : String :=
  String.mk ((splitChars '/' p.toList).getLastD [])

/-- Python name.rsplit(".", 1)[0]: everything before the last dot, or the
whole name when it has no dot. -/
def rsplitBase (name : String) : String :=
  let parts := splitChars '.' name.toList
  match parts with
  | [] => name
  | [_] => name
  | _ => String.mk (List.intercalate ['.'] parts.dropLast)

/-- Count of the leading dots of a name (os.path.splitext ignores them). -/
def leadingDots (cs : List Char) : Nat :=
  (cs.takeWhile (fun c => c = '.')).length

/-- Index of the last dot usable as an extension separator, os.path.splitext
style: a dot strictly after the leading run of dots. -/
def extDotIndex (cs : List Char) : Option Nat :=
  let lead := leadingDots cs
  let idxs := (List.range cs.length).filter
    (fun i => lead ≤ i && cs.getD i ' ' = '.' && i ≠ 0)
  idxs.getLast?

/-- os.path.splitext(base) first component (the stem). -/
def splitextStem (base : String) : String :=
  match extDotIndex base.toList with
  | none => base
  | some i => String.mk (base.toList.take i)

/-- os.path.splitext(base) second component (the extension with its dot). -/
def splitextExt (base : String) : String :=
  match extDotIndex base.toList with
  | none => ""
  | some i => String.mk (base.toList.drop i)

/-- Bytes of an ASCII string, as code points; models .encode("utf-8") for the
ASCII-only texts the pipeline writes. -/
def strBytes (s : String) : List Nat :=
  s.toList.map Char.toNat

/-! ## Blob-store effects as trace actions -/

/-- One observable call the pipeline makes against the blob store or the audit
sink.  stage00_excel_to_prep emits only write and move actions; it makes no
audit calls at all.  src/stages/stage00.py additionally emits folder creation,
copy and audit actions. -/
inductive Act where
  | write (path : String) (data : List Nat)
  | copy (src : String) (dst : String)
  | move (src : String) (dst : String)
  | ensureFolder (p : String)
  | audit (event : String) (message : String)
deriving DecidableEq, Repr

/-- Does an action record an audit event with the given name? -/
def isAuditEvent (e : String) : Act → Bool
  | Act.audit ev _ => ev = e
  | _ => false

/-- Is the action any audit record at all? -/
def isAuditAction : Act → Bool
  | Act.audit _ _ => true
  | _ => false

/-- Does the action move the given source path? -/
def movesFrom (p : String) : Act → Bool
  | Act.move s _ => s = p
  | _ => false

/-- Does the action write to the given path? -/
def writesTo (p : String) : Act → Bool
  | Act.write q _ => q = p
  | _ => false

/-! ## Embedding of stage00_excel_to_prep (src/monthly_pipeline_MULTISTAGE.py) -/

/-- A file as returned by _list_files together with the outcome the store
gives for dbx.read_bytes_or_none(path): some bytes, or none on a failed read. -/
structure DbxFile where
  name : String
  path : String
  content : Option (List Nat)
deriving DecidableEq, Repr

/-- The .xlsx filter of stage00: n.lower().endswith(".xlsx"). -/
def isXlsx (name : String) : Bool :=
  pyEndsWith (pyLower name) ".xlsx"

/-- The ProcessingKey f"00:\x7bname\x7d:\x7b_sha12(raw)\x7d", with _sha12
(the truncated sha256 hex digest) abstracted as the function h. -/
def key00 (h : List Nat → String) (name : String) (raw : List Nat) : String :=
  "00:" ++ name ++ ":" ++ h raw

/-- ProcessingKey of a listed file, when its bytes could be read. -/
def fileKey (h : List Nat → String) (f : DbxFile) : Option String :=
  f.content.map (fun raw => key00 h f.name raw)

/-- dst of _move_to_done: f"\x7bdone_dir\x7d/\x7bname\x7d" where name is
src_path.split("/")[-1].  The destination depends only on the source path. -/
def moveToDoneDst (srcPath doneDir : String) : String :=
  doneDir ++ "/" ++ lastComponent srcPath

/-- Mutable state of the per-file loop of stage00_excel_to_prep: the done_keys
set (as a duplicate-free list), the processed counter, and the store actions
performed so far. -/
structure LoopState where
  done : List String
  processed : Nat
  actions : List Act
deriving DecidableEq, Repr

/-- One iteration of the stage00_excel_to_prep loop body for a listed file:
skip when the read failed, skip when the key is already in done_keys, else
write the transformed bytes to prep_in under the decorated name, move the
original into inbox_done, add the key and bump the counter.  tr is the opaque
composite of process_monthly_workbook and JSON serialisation; stamp is the
value of _now_stamp() for this iteration. -/
def stage00Step (h : List Nat → String) (tr : List Nat → String → List Nat)
    (stamp : String) (prepIn inboxDone : String) (s : LoopState) (f : DbxFile) :
    LoopState :=
  match f.content with
  | none => s
  | some raw =>
    let key := key00 h f.name raw
    if key ∈ s.done then s
    else
      let outName := rsplitBase f.name ++ "__" ++ stamp ++ "__" ++ h raw ++ ".prep.json"
      let outPath := prepIn ++ "/" ++ outName
      { done := s.done ++ [key]
        processed := s.processed + 1
        actions := s.actions ++
          [Act.write outPath (tr raw f.name),
           Act.move f.path (moveToDoneDst f.path inboxDone)] }

/-- The capped for-loop of stage00_excel_to_prep over the listed files, with i
the call index used to feed the timestamp supply. -/
def stage00Loop (h : List Nat → String) (tr : List Nat → String → List Nat)
    (stamp : Nat → String) (prepIn inboxDone : String) :
    List DbxFile → Nat → LoopState → LoopState
  | [], _, s => s
  | f :: fs, i, s =>
    stage00Loop h tr stamp prepIn inboxDone fs (i + 1)
      (stage00Step h tr (stamp i) prepIn inboxDone s f)

/-- Result of one stage00_excel_to_prep pass: the store actions, the final
done-key set written back into state["done"], and the return value. -/
structure Stage00Out where
  actions : List Act
  done : List String
  processed : Nat
deriving DecidableEq, Repr

/-- stage00_excel_to_prep: filter the listing to .xlsx names, return 0 at once
when none (leaving the state untouched), otherwise run the loop over the first
max_files_per_run entries starting from done_keys = set(state["done"]). -/
def stage00_excel_to_prep (h : List Nat → String)
    (tr : List Nat → String → List Nat) (stamp : Nat → String)
    (maxFiles : Nat) (prepIn inboxDone : String)
    (stateDone : List String) (files : List DbxFile) : Stage00Out :=
  let xlsx := files.filter (fun f => isXlsx f.name)
  if xlsx.isEmpty then ⟨[], stateDone, 0⟩
  else
    let s := stage00Loop h tr stamp prepIn inboxDone (xlsx.take maxFiles) 0
      ⟨stateDone.dedup, 0, []⟩
    ⟨s.actions, s.done, s.processed⟩

/-! ## Embedding of run (src/stages/stage00.py) -/

/-- Outcome the store gives for the copy-then-move of one listed file inside
the per-file try block: both calls succeed, files_copy_v2 raises, or
files_move_v2 raises after a successful copy. -/
inductive FileOp where
  | ok
  | failCopy (msg : String)
  | failMove (msg : String)
deriving DecidableEq, Repr

/-- One FileMetadata entry of the listing together with its per-file store
outcome. -/
structure StageFile where
  pathDisplay : String
  rev : String
  op : FileOp
deriving DecidableEq, Repr

/-- Environment of one run(...) call of src/stages/stage00.py: the three
stage paths taken from the paths object, whether the marker upload and the
input listing succeed, the listed files, and MAX_FILES_PER_RUN. -/
structure RunEnv where
  inPath : String
  outPath : String
  donePath : String
  markerOk : Bool
  listOk : Bool
  files : List StageFile
  maxN : Nat
deriving DecidableEq, Repr

/-- The per-file for-loop of run: copy the original to OUT under a
stage-and-timestamp name, move it to DONE under a rev-and-timestamp name,
audit the success; on the first exception audit a stage00_error record and
return 1 immediately, abandoning every remaining file.  On normal completion
audit the summary record and return 0. -/
def stage00RunLoop (outP doneP : String) (stamp : Nat → String) :
    List StageFile → Nat → Nat → List Act → List Act × Int
  | [], _, processed, acc =>
    (acc ++ [Act.audit "stage00_summary" (toString processed)], 0)
  | f :: rest, i, processed, acc =>
    let base := lastComponent f.pathDisplay
    let outName := splitextStem base ++ "__stage00__" ++ stamp i ++ splitextExt base
    let doneName :=
      splitextStem base ++ "__rev-" ++ f.rev ++ "__" ++ stamp i ++ splitextExt base
    let outPath := rstripSlash outP ++ "/" ++ outName
    let donePath := rstripSlash doneP ++ "/" ++ doneName
    match f.op with
    | FileOp.ok =>
      stage00RunLoop outP doneP stamp rest (i + 1) (processed + 1)
        (acc ++ [Act.copy f.pathDisplay outPath, Act.move f.pathDisplay donePath,
                 Act.audit "stage00_processed" f.pathDisplay])
    | FileOp.failCopy m =>
      (acc ++ [Act.audit "stage00_error" (f.pathDisplay ++ ": " ++ m)], 1)
    | FileOp.failMove m =>
      (acc ++ [Act.copy f.pathDisplay outPath,
               Act.audit "stage00_error" (f.pathDisplay ++ ": " ++ m)], 1)

/-- run of src/stages/stage00.py: path checks (return 2), folder creation,
marker upload (return 1 on failure), listing (return 1 on ApiError), then the
capped per-file loop.  The in-memory state.stages bookkeeping is wrapped in
try/except pass and has no observable store effect, so it is not traced. -/
def stage00run (env : RunEnv) (stamp : Nat → String) : List Act × Int :=
  if env.inPath = "" then ([Act.audit "error" "missing required path: in_path"], 2)
  else if env.outPath = "" then
    ([Act.audit "error" "missing required path: out_path"], 2)
  else if env.donePath = "" then
    ([Act.audit "error" "missing required path: done_path"], 2)
  else
    let mk := [Act.ensureFolder env.outPath, Act.ensureFolder env.donePath]
    let markerPath :=
      rstripSlash env.outPath ++ "/_stage00_marker__" ++ stamp 0 ++ ".txt"
    if env.markerOk then
      let mtrace := mk ++
        [Act.write markerPath (strBytes ("stage00 alive at " ++ stamp 0 ++ " UTC\n")),
         Act.audit "stage00_marker_written" markerPath]
      if env.listOk then
        stage00RunLoop env.outPath env.donePath stamp (env.files.take env.maxN) 1 0 mtrace
      else (mtrace ++ [Act.audit "error" "stage00.list"], 1)
    else (mk ++ [Act.audit "warn" "stage00.marker"], 1)

/-! ## Exit-code flow of main (src/monthly_main.py) -/

/-- What the resolved stage entrypoint did when called: returned an int,
returned a non-int (treated as 0), raised an ordinary exception (rc = 1), or
raised SystemExit(n) (re-raised, so the process exits with n). -/
inductive StageOutcome where
  | retInt (n : Int)
  | retOther
  | raises
  | sysExit (n : Int)
deriving DecidableEq, Repr

/-- How stage-module dispatch went: no module importable (graceful exit 0),
a module with no callable main/run/process (exit 1), or a callable found. -/
inductive ModuleLookup where
  | notFound
  | foundNoCallable
  | found (outcome : StageOutcome)
deriving DecidableEq, Repr

/-- Process exit code of monthly_main.main as a function of whether
make_dbx_from_env succeeded and of the dispatch outcome, read off the
return statements of main. -/
def mainExit (credsOk : Bool) (lookup : ModuleLookup) : Int :=
  if credsOk then
    match lookup with
    | ModuleLookup.notFound => 0
    | ModuleLookup.foundNoCallable => 1
    | ModuleLookup.found (StageOutcome.retInt n) => n
    | ModuleLookup.found StageOutcome.retOther => 0
    | ModuleLookup.found StageOutcome.raises => 1
    | ModuleLookup.found (StageOutcome.sysExit n) => n
  else 1

/-! ## The three audit flush paths -/

/-- One buffered audit record, reduced to the fields the flush paths use. -/
structure AuditEvt where
  stage : String
  event : String
  message : String
deriving DecidableEq, Repr

/-- A fixed JSON-ish rendering standing for json.dumps of one record (its
exact text is irrelevant to every claim). -/
def evtJson (e : AuditEvt) : String :=
  "\x7b\"stage\": \"" ++ e.stage ++ "\", \"event\": \"" ++ e.event ++
    "\", \"message\": \"" ++ e.message ++ "\"\x7d"

/-- _norm_dir of audit_logger.py: strip, force a leading slash, drop exactly
one trailing slash when the result is longer than a bare slash. -/
def normDir (p : String) : String :=
  let q := pyStrip p
  let q2 := if pyStartsWith q "/" then q else "/" ++ q
  if q2.toList.length > 1 && pyEndsWith q2 "/" then String.mk q2.toList.dropLast
  else q2

/-- AuditLogger.flush of audit_logger.py: builds the JSONL body and calls
dbx.write_file_bytes with no exception handler, so a failed store write
propagates to the caller (modelled as Except.error) and nothing is printed. -/
def auditLoggerFlush (logsDir runId : String) (buffer : List AuditEvt)
    (writeOk : Bool) : Except String (List Act) :=
  let path := normDir logsDir ++ "/monthly_audit_" ++ runId ++ ".jsonl"
  let body := strBytes (String.intercalate "\n" (buffer.map evtJson) ++ "\n")
  if writeOk then Except.ok [Act.write path body]
  else Except.error "write_file_bytes failed"

/-- flush_audit_jsonl of state_store.py: best-effort, never raises; on write
failure appends an in-memory error record to the audit buffer (no stdout
fallback) and still returns the target path.  Result: store actions,
resulting audit buffer, returned path. -/
def flushAuditJsonl (logsDir runId : String) (audit : List AuditEvt)
    (writeOk : Bool) : List Act × List AuditEvt × String :=
  let outPath := rstripSlash logsDir ++ "/monthly_audit_" ++ runId ++ ".jsonl"
  let lines := audit.map evtJson
  let body :=
    strBytes (String.intercalate "\n" lines ++ (if lines.isEmpty then "" else "\n"))
  if writeOk then ([Act.write outPath body], audit, outPath)
  else ([], audit ++ [⟨"--", "error", "audit_flush_failed"⟩], outPath)

/-- write_audit_record of monthly_main.py: day-partitioned path, swallows the
write exception and returns none on any failure (or when logs_dir is empty). -/
def writeAuditRecord (logsDir runId : String) (writeOk : Bool) : Option String :=
  if logsDir = "" then none
  else
    let outPath := rstripSlash logsDir ++ "/" ++ String.mk (runId.toList.take 8) ++
      "/run_" ++ runId ++ ".jsonl"
    if writeOk then some outPath else none

/-- The stdout fallback block of main: when write_audit_record returned none,
print a warning line and then every buffered event. -/
def auditFallbackStdout (events : List AuditEvt) (outp : Option String) :
    List String :=
  match outp with
  | some _ => []
  | none => "[warn] write_audit_record failed; fallback to stdout" ::
      events.map evtJson

/-! ## JSON documents and the two StateStore.load variants -/

/-- A parsed JSON document as json.loads returns it.  Object keys are
strings (json.loads guarantees this, and gives objects unique keys); numbers
are modelled as integers, since no claim depends on float rendering. -/
inductive J where
  | null : J
  | bool (b : Bool) : J
  | num (n : Int) : J
  | str (s : String) : J
  | arr (xs : List J) : J
  | obj (fields : List (String × J)) : J

mutual

/-- CPython repr of a json.loads value (escaping inside quoted strings is
not modelled; no claim depends on it). -/
def pyRepr : J → String
  | J.null => "None"
  | J.bool true => "True"
  | J.bool false => "False"
  | J.num n => toString n
  | J.str s => "\x27" ++ s ++ "\x27"
  | J.arr xs => "[" ++ String.intercalate ", " (pyReprList xs) ++ "]"
  | J.obj kvs => "\x7b" ++ String.intercalate ", " (pyReprObj kvs) ++ "\x7d"

/-- repr of each element of a list value. -/
def pyReprList : List J → List String
  | [] => []
  | x :: r => pyRepr x :: pyReprList r

/-- repr of each key-value pair of an object value. -/
def pyReprObj : List (String × J) → List String
  | [] => []
  | (k, v) :: r => ("\x27" ++ k ++ "\x27: " ++ pyRepr v) :: pyReprObj r

end

/-- CPython str() on a json.loads value: the string itself for strings,
repr for everything else. -/
def pyStr (j : J) : String :=
  match j with
  | J.str s => s
  | _ => pyRepr j

/-- Is the value a JSON array (a Python list)? -/
def jIsArr : J → Bool
  | J.arr _ => true
  | _ => false

/-- Is the value a JSON object (a Python dict)? -/
def jIsObj : J → Bool
  | J.obj _ => true
  | _ => false

/-- StateStore of src/state.py after load: the state path and the processed
mapping, a finite map from strings to strings. -/
structure PyStateStore where
  statePath : String
  processed : List (String × String)
deriving DecidableEq, Repr

/-- StateStore.load of src/state.py.  The outer none models a raised read
(_dbx_read_bytes), the inner none a json.loads failure; both land in the
except branch.  Otherwise: data.get("processed", empty dict) when data is a
dict else the empty dict; reset to empty when that value is not a dict; then
coerce every entry with str(k)/str(v) (keys from json.loads are already
strings, so str(k) = k). -/
def statePyLoad (statePath : String) (input : Option (Option J)) : PyStateStore :=
  match input with
  | some (some d) =>
    let processedJ : J :=
      match d with
      | J.obj kvs => (List.lookup "processed" kvs).getD (J.obj [])
      | _ => J.obj []
    match processedJ with
    | J.obj pkvs => ⟨statePath, pkvs.map (fun kv => (kv.1, pyStr kv.2))⟩
    | _ => ⟨statePath, []⟩
  | _ => ⟨statePath, []⟩

/-- StateStore._empty() of src/state_store.py. -/
def ssEmpty : List (String × J) :=
  [("done", J.arr []), ("errors", J.arr []), ("processed", J.obj [])]

/-- Python dict.update on an insertion-ordered dict: values of existing keys
are replaced in place, new keys are appended in their order of appearance. -/
def dictUpdate (base d : List (String × J)) : List (String × J) :=
  (base.map (fun kv =>
    match List.lookup kv.1 d with
    | some v => (kv.1, v)
    | none => kv))
  ++ d.filter (fun kv => (List.lookup kv.1 base).isNone)

/-- Assignment base[k] = v on an insertion-ordered dict. -/
def setField (data : List (String × J)) (k : String) (v : J) :
    List (String × J) :=
  if (List.lookup k data).isSome then
    data.map (fun kv => if kv.1 = k then (k, v) else kv)
  else data ++ [(k, v)]

/-- One shape fix-up of StateStore.load: when base.get(k) is not of the
expected kind, reset base[k] to the given empty value. -/
def fixField (data : List (String × J)) (k : String) (good : J → Bool)
    (empt : J) : List (String × J) :=
  match List.lookup k data with
  | some v => if good v then data else setField data k empt
  | none => setField data k empt

/-- StateStore of src/state_store.py after load: path plus the whole state
document. -/
structure SSStore where
  path : String
  data : List (String × J)

/-- StateStore.load of src/state_store.py: the whole body is inside one try,
so any read or parse failure (either none) returns the empty document; on
success, start from _empty(), update with the parsed dict when it is a dict,
then force the done/errors/processed fields back to their empty shapes when
they are not a list / list / dict. -/
def ssLoad (path : String) (input : Option (Option J)) : SSStore :=
  match input with
  | some (some d) =>
    let base0 :=
      match d with
      | J.obj kvs => dictUpdate ssEmpty kvs
      | _ => ssEmpty
    let base1 := fixField base0 "done" jIsArr (J.arr [])
    let base2 := fixField base1 "errors" jIsArr (J.arr [])
    let base3 := fixField base2 "processed" jIsObj (J.obj [])
    ⟨path, base3⟩
  | _ => ⟨path, ssEmpty⟩

/-! ## Embedding of run_switch_stage (src/monthly_pipeline_MULTISTAGE.py) -/

/-- _norm_root of monthly_spec.py (dev side). -/
def normRoot (p : String) : String :=
  let q := pyStrip p
  if q = "" then ""
  else
    let q2 := if pyStartsWith q "/" then q else "/" ++ q
    if q2.toList.length > 1 && pyEndsWith q2 "/" then rstripSlash q2 else q2

/-- _join of monthly_spec.py (dev side). -/
def joinSub (root sub : String) : String :=
  let r := normRoot root
  let s := String.mk ((pyStrip sub).toList.dropWhile (fun c => c = '/'))
  if r = "" then (if s = "" then "" else "/" ++ s)
  else r ++ (if s = "" then "" else "/" ++ s)

/-- The configuration fields of MonthlyCfg (dev side) that run_switch_stage
and _ensure_stage_dirs read. -/
structure MCfg where
  stage : String
  inboxRoot : String
  prepRoot : String
  overviewRoot : String
  outboxRoot : String
  statePath : String
  logsDir : String
deriving DecidableEq, Repr

/-- The thirteen folders _ensure_stage_dirs creates best-effort, in source
order (each dbx.ensure_folder call is wrapped in try/except pass). -/
def ensureDirsList (cfg : MCfg) : List String :=
  [joinSub cfg.inboxRoot "IN", joinSub cfg.inboxRoot "DONE",
   joinSub cfg.inboxRoot "OUT",
   joinSub cfg.prepRoot "IN", joinSub cfg.prepRoot "DONE",
   joinSub cfg.prepRoot "OUT",
   joinSub cfg.overviewRoot "IN", joinSub cfg.overviewRoot "DONE",
   joinSub cfg.overviewRoot "OUT",
   joinSub cfg.outboxRoot "IN", joinSub cfg.outboxRoot "DONE",
   joinSub cfg.outboxRoot "OUT",
   cfg.logsDir]

/-- A top-level effect of run_switch_stage. -/
inductive TopAct where
  | ensureFolder (p : String)
  | loadState (p : String)
  | saveState (p : String)
deriving DecidableEq, Repr

/-- run_switch_stage: ensure the stage dirs, load the state document,
dispatch on (cfg.stage or "00").strip(), save the state back, and return the
dispatched count (0 when the stage id matches no branch).  runStage stands
for calling one of the three stage functions, whose behaviour is proved
separately; load_state / save_state are imported names whose definitions are
not in the source tree and are modelled as opaque store operations against
the state path. -/
def runSwitchStage (cfg : MCfg) (runStage : String → List TopAct × Nat) :
    List TopAct × Nat :=
  let dirs := (ensureDirsList cfg).map TopAct.ensureFolder
  let stage := pyStrip (if cfg.stage = "" then "00" else cfg.stage)
  let sr :=
    if stage = "00" then runStage "00"
    else if stage = "10" then runStage "10"
    else if stage = "20" then runStage "20"
    else ([], 0)
  (dirs ++ [TopAct.loadState cfg.statePath] ++ sr.1 ++
    [TopAct.saveState cfg.statePath], sr.2)

/-! ## Concrete stand-ins for the witnesses and counterexamples -/

/-- A concrete content fingerprint standing in for _sha12 (injective on the
tiny byte lists used below). -/
def hW : List Nat → String := fun raw => toString (raw.foldl (fun a b => a + b) 0)

/-- A concrete transform standing in for process_monthly_workbook followed
by JSON serialisation. -/
def trW : List Nat → String → List Nat := fun raw _ => raw

/-- A concrete timestamp supply. -/
def stampW : Nat → String := fun i => "T" ++ toString i

/-- A two-file batch whose first file fails during its copy step. -/
def envBad : RunEnv :=
  { inPath := "/00/IN", outPath := "/00/OUT", donePath := "/00/DONE"
    markerOk := true, listOk := true
    files := [⟨"/00/IN/a.xlsx", "r1", FileOp.failCopy "ApiError: boom"⟩,
              ⟨"/00/IN/b.xlsx", "r2", FileOp.ok⟩]
    maxN := 200 }

/-- One listed inbox workbook with content bytes [1, 2]. -/
def fileR : DbxFile := ⟨"report.xlsx", "/00_inbox_raw/IN/report.xlsx", some [1, 2]⟩

/-- The same path as fileR with content bytes [1]. -/
def fileC1 : DbxFile := ⟨"report.xlsx", "/00_inbox_raw/IN/report.xlsx", some [1]⟩

/-- The same path as fileR with content bytes [2]. -/
def fileC2 : DbxFile := ⟨"report.xlsx", "/00_inbox_raw/IN/report.xlsx", some [2]⟩

/-- Two pending workbooks with distinct contents, used for the cap claim. -/
def fileA : DbxFile := ⟨"a.xlsx", "/00_inbox_raw/IN/a.xlsx", some [1]⟩

/-- Second pending workbook for the cap claim. -/
def fileB : DbxFile := ⟨"b.xlsx", "/00_inbox_raw/IN/b.xlsx", some [2]⟩

/-! # Helper lemmas: the stage00_excel_to_prep loop -/

/-- A file whose key is already in done_keys leaves the loop state unchanged:
no store action, no counter bump, no mark. -/
theorem stage00Step_skip (h : List Nat → String) (tr : List Nat → String → List Nat)
    (st prepIn inboxDone : String) (s : LoopState) (f : DbxFile) (raw : List Nat)
    (hc : f.content = some raw) (hk : key00 h f.name raw ∈ s.done) :
    stage00Step h tr st prepIn inboxDone s f = s := by
  simp [stage00Step, hc, hk]

/-- After the loop body runs on a readable file, its key is in done_keys. -/
theorem stage00Step_mem_done (h : List Nat → String) (tr : List Nat → String → List Nat)
    (st prepIn inboxDone : String) (s : LoopState) (f : DbxFile) (raw : List Nat)
    (hc : f.content = some raw) :
    key00 h f.name raw ∈ (stage00Step h tr st prepIn inboxDone s f).done := by
  by_cases hk : key00 h f.name raw ∈ s.done
  · rw [stage00Step_skip h tr st prepIn inboxDone s f raw hc hk]; exact hk
  · simp [stage00Step, hc, hk]

/-- The loop body never removes keys from done_keys. -/
theorem stage00Step_done_subset (h : List Nat → String)
    (tr : List Nat → String → List Nat) (st prepIn inboxDone : String)
    (s : LoopState) (f : DbxFile) :
    s.done ⊆ (stage00Step h tr st prepIn inboxDone s f).done := by
  cases hc : f.content with
  | none => simp [stage00Step, hc]
  | some raw =>
    by_cases hk : key00 h f.name raw ∈ s.done
    · simp [stage00Step, hc, hk]
    · simp only [stage00Step, hc, hk]
      simp

/-- The loop never removes keys from done_keys. -/
theorem stage00Loop_done_subset (h : List Nat → String)
    (tr : List Nat → String → List Nat) (stamp : Nat → String)
    (prepIn inboxDone : String) :
    ∀ (l : List DbxFile) (i : Nat) (s : LoopState),
      s.done ⊆ (stage00Loop h tr stamp prepIn inboxDone l i s).done := by
  intro l
  induction l with
  | nil => intro i s; simp [stage00Loop]
  | cons f fs ih =>
    intro i s
    exact (stage00Step_done_subset h tr (stamp i) prepIn inboxDone s f).trans
      (ih (i + 1) (stage00Step h tr (stamp i) prepIn inboxDone s f))

/-! # C1 -/

/-- C1: within one stage00_excel_to_prep pass each ProcessingKey (built
deterministically from the file name and the content fingerprint) is handled
at most once.  First conjunct: a listed file whose key is already in
done_keys leaves the loop state unchanged — no transform, no output write,
no move, no mark.  Second conjunct: after any file f with readable content
raw has gone through the loop body, any later file g of the same pass with
the same name and the same content (after any intervening files l) is
skipped, whatever timestamps the two iterations saw. -/
theorem stage00_processing_key_at_most_once (h : List Nat → String)
    (tr : List Nat → String → List Nat) (st1 st2 : String) (stamp : Nat → String)
    (prepIn inboxDone : String) (s : LoopState) (f g : DbxFile) (raw : List Nat)
    (l : List DbxFile) (i : Nat)
    (hf : f.content = some raw) (hg : g.content = some raw) (hn : g.name = f.name) :
    (key00 h f.name raw ∈ s.done →
      stage00Step h tr st1 prepIn inboxDone s f = s)
    ∧ stage00Step h tr st2 prepIn inboxDone
        (stage00Loop h tr stamp prepIn inboxDone l i
          (stage00Step h tr st1 prepIn inboxDone s f)) g
      = stage00Loop h tr stamp prepIn inboxDone l i
          (stage00Step h tr st1 prepIn inboxDone s f) := by
  constructor
  · intro hk
    exact stage00Step_skip h tr st1 prepIn inboxDone s f raw hf hk
  · apply stage00Step_skip h tr st2 prepIn inboxDone _ g raw hg
    rw [hn]
    exact stage00Loop_done_subset h tr stamp prepIn inboxDone l i _
      (stage00Step_mem_done h tr st1 prepIn inboxDone s f raw hf)

/-- Witness for C1 at a concrete input: an empty initial ledger, the file
report.xlsx with bytes [1, 2], no intervening files, and a second listing
entry with the same name and content at another path. -/
theorem stage00_processing_key_at_most_once_witness :
    stage00Step hW trW "B" "/P" "/D"
        (stage00Loop hW trW stampW "/P" "/D" [] 0
          (stage00Step hW trW "A" "/P" "/D" ⟨[], 0, []⟩ fileR))
        ⟨"report.xlsx", "/elsewhere/report.xlsx", some [1, 2]⟩
      = stage00Loop hW trW stampW "/P" "/D" [] 0
          (stage00Step hW trW "A" "/P" "/D" ⟨[], 0, []⟩ fileR) :=
  (stage00_processing_key_at_most_once hW trW "A" "B" stampW "/P" "/D"
    ⟨[], 0, []⟩ fileR ⟨"report.xlsx", "/elsewhere/report.xlsx", some [1, 2]⟩
    [1, 2] [] 0 rfl rfl rfl).2

/-! # C2 -/

/-- C2: loading the StateLedger never raises and tolerates corruption: both
StateStore.load variants are total functions here (their Python bodies are
one try/except returning the empty ledger), and on a failed remote read
(outer none, covering a missing path) or unparseable JSON (inner none) each
returns the empty ledger, so the run proceeds normally. -/
theorem state_ledger_load_failure_empty (path : String) :
    ssLoad path none = ⟨path, ssEmpty⟩
    ∧ ssLoad path (some none) = ⟨path, ssEmpty⟩
    ∧ statePyLoad path none = ⟨path, []⟩
    ∧ statePyLoad path (some none) = ⟨path, []⟩ :=
  ⟨rfl, rfl, rfl, rfl⟩

/-! # C9 -/

/-- C9: for every input document, StateStore.load of src/state.py yields a
processed field that is a finite map from strings to strings: read and parse
failures, a non-dict top-level value, and a missing or non-dict processed
field each give the empty map, and in the remaining case every retained
entry is string-coerced with str (keys from json.loads are already
strings). -/
theorem statestore_load_processed_string_map (path : String)
    (input : Option (Option J)) :
    (input = none → (statePyLoad path input).processed = [])
    ∧ (input = some none → (statePyLoad path input).processed = [])
    ∧ (∀ d, input = some (some d) → jIsObj d = false →
        (statePyLoad path input).processed = [])
    ∧ (∀ kvs, input = some (some (J.obj kvs)) →
        List.lookup "processed" kvs = none →
        (statePyLoad path input).processed = [])
    ∧ (∀ kvs v, input = some (some (J.obj kvs)) →
        List.lookup "processed" kvs = some v → jIsObj v = false →
        (statePyLoad path input).processed = [])
    ∧ (∀ kvs pkvs, input = some (some (J.obj kvs)) →
        List.lookup "processed" kvs = some (J.obj pkvs) →
        (statePyLoad path input).processed
          = pkvs.map (fun kv => (kv.1, pyStr kv.2))) := by
  refine ⟨?_, ?_, ?_, ?_, ?_, ?_⟩
  · rintro rfl; rfl
  · rintro rfl; rfl
  · rintro d rfl hd
    cases d <;> simp_all [statePyLoad, jIsObj]
  · rintro kvs rfl hl
    simp [statePyLoad, hl]
  · rintro kvs v rfl hl hv
    cases v <;> simp_all [statePyLoad, jIsObj]
  · rintro kvs pkvs rfl hl
    simp [statePyLoad, hl]

/-- Witness for C9 at a concrete document: a dict with a processed dict
holding one numeric entry, which load string-coerces. -/
theorem statestore_load_processed_string_map_witness :
    (statePyLoad "/_system/state.json"
        (some (some (J.obj [("processed", J.obj [("00:a.xlsx:1", J.num 3)]),
                            ("other", J.null)])))).processed
      = ([("00:a.xlsx:1", J.num 3)]).map (fun kv => (kv.1, pyStr kv.2)) :=
  (statestore_load_processed_string_map "/_system/state.json"
      (some (some (J.obj [("processed", J.obj [("00:a.xlsx:1", J.num 3)]),
                          ("other", J.null)])))).2.2.2.2.2
    [("processed", J.obj [("00:a.xlsx:1", J.num 3)]), ("other", J.null)]
    [("00:a.xlsx:1", J.num 3)] rfl rfl

/-! # Helper lemmas: audit-free actions and processed counting -/

/-- The loop body only ever appends write and move store actions, never an
audit record. -/
theorem stage00Step_actions_no_audit (h : List Nat → String)
    (tr : List Nat → String → List Nat) (st prepIn inboxDone : String)
    (s : LoopState) (f : DbxFile) (a : Act)
    (ha : a ∈ (stage00Step h tr st prepIn inboxDone s f).actions) :
    a ∈ s.actions ∨ isAuditAction a = false := by
  cases hc : f.content with
  | none =>
    rw [show stage00Step h tr st prepIn inboxDone s f = s by
      simp [stage00Step, hc]] at ha
    exact Or.inl ha
  | some raw =>
    by_cases hk : key00 h f.name raw ∈ s.done
    · rw [stage00Step_skip h tr st prepIn inboxDone s f raw hc hk] at ha
      exact Or.inl ha
    · simp only [stage00Step, hc, hk, if_false] at ha
      simp at ha
      rcases ha with ha | ha | ha
      · exact Or.inl ha
      · subst ha; simp [isAuditAction]
      · subst ha; simp [isAuditAction]

/-- The whole loop never appends an audit record. -/
theorem stage00Loop_actions_no_audit (h : List Nat → String)
    (tr : List Nat → String → List Nat) (stamp : Nat → String)
    (prepIn inboxDone : String) :
    ∀ (l : List DbxFile) (i : Nat) (s : LoopState) (a : Act),
      a ∈ (stage00Loop h tr stamp prepIn inboxDone l i s).actions →
      a ∈ s.actions ∨ isAuditAction a = false := by
  intro l
  induction l with
  | nil => intro i s a ha; exact Or.inl ha
  | cons f fs ih =>
    intro i s a ha
    rcases ih (i + 1) (stage00Step h tr (stamp i) prepIn inboxDone s f) a ha with
      h1 | h2
    · exact stage00Step_actions_no_audit h tr (stamp i) prepIn inboxDone s f a h1
    · exact Or.inr h2

/-- stage00_excel_to_prep emits no audit action whatsoever. -/
theorem stage00_excel_actions_no_audit (h : List Nat → String)
    (tr : List Nat → String → List Nat) (stamp : Nat → String) (maxFiles : Nat)
    (prepIn inboxDone : String) (stateDone : List String) (files : List DbxFile)
    (a : Act)
    (ha : a ∈ (stage00_excel_to_prep h tr stamp maxFiles prepIn inboxDone
        stateDone files).actions) :
    isAuditAction a = false := by
  unfold stage00_excel_to_prep at ha
  by_cases he : (files.filter (fun f => isXlsx f.name)).isEmpty
  · simp [he] at ha
  · simp [he] at ha
    rcases stage00Loop_actions_no_audit h tr stamp prepIn inboxDone
        ((files.filter (fun f => isXlsx f.name)).take maxFiles) 0
        ⟨stateDone.dedup, 0, []⟩ a ha with h1 | h2
    · simp at h1
    · exact h2

/-- When every file of the listing segment is readable, none of their keys is
in done_keys yet, and the keys are pairwise distinct, the loop processes each
file, adding exactly the length of the segment to the counter. -/
theorem stage00Loop_processed_count (h : List Nat → String)
    (tr : List Nat → String → List Nat) (stamp : Nat → String)
    (prepIn inboxDone : String) :
    ∀ (l : List DbxFile) (i : Nat) (s : LoopState),
      (∀ f ∈ l, (f.content).isSome) →
      (∀ f ∈ l, ∀ raw, f.content = some raw → key00 h f.name raw ∉ s.done) →
      (l.map (fileKey h)).Nodup →
      (stage00Loop h tr stamp prepIn inboxDone l i s).processed
        = s.processed + l.length := by
  intro l
  induction l with
  | nil => intro i s _ _ _; simp [stage00Loop]
  | cons f fs ih =>
    intro i s hcon hfresh hnd
    obtain ⟨raw, hraw⟩ := Option.isSome_iff_exists.mp
      (hcon f (List.mem_cons_self f fs))
    have hk : key00 h f.name raw ∉ s.done :=
      hfresh f (List.mem_cons_self f fs) raw hraw
    have hproc : (stage00Step h tr (stamp i) prepIn inboxDone s f).processed
        = s.processed + 1 := by
      simp [stage00Step, hraw, hk]
    have hdone : (stage00Step h tr (stamp i) prepIn inboxDone s f).done
        = s.done ++ [key00 h f.name raw] := by
      simp [stage00Step, hraw, hk]
    rw [List.map_cons] at hnd
    have hnd2 := List.nodup_cons.mp hnd
    have hrec := ih (i + 1) (stage00Step h tr (stamp i) prepIn inboxDone s f)
      (fun g hg => hcon g (List.mem_cons_of_mem f hg))
      (fun g hg rg hrg => by
        rw [hdone]
        intro hmem
        rcases List.mem_append.mp hmem with hin | hin
        · exact hfresh g (List.mem_cons_of_mem f hg) rg hrg hin
        · have heq : key00 h g.name rg = key00 h f.name raw :=
            List.mem_singleton.mp hin
          have hgk : fileKey h g = some (key00 h g.name rg) := by
            simp [fileKey, hrg]
          have hfk : fileKey h f = some (key00 h f.name raw) := by
            simp [fileKey, hraw]
          apply hnd2.1
          rw [hfk, ← heq, ← hgk]
          exact List.mem_map_of_mem (fileKey h) hg)
      hnd2.2
    show (stage00Loop h tr stamp prepIn inboxDone fs (i + 1)
        (stage00Step h tr (stamp i) prepIn inboxDone s f)).processed
      = s.processed + (fs.length + 1)
    rw [hrec, hproc]
    omega

/-! # C4 -/

/-- C4 counterexample: with max_files_per_run = 1 and two pending .xlsx
files, stage00_excel_to_prep processes exactly one file but records no stop
AuditRecord — it records no audit event of any kind, contradicting the
claimed stop event. -/
theorem stage00_cap_no_stop_counterexample :
    (stage00_excel_to_prep hW trW stampW 1 "/P" "/D" [] [fileA, fileB]).processed
        = 1
    ∧ ((stage00_excel_to_prep hW trW stampW 1 "/P" "/D" []
          [fileA, fileB]).actions.countP isAuditAction) = 0 := by
  decide

/-- C4 (amended): with max_files_per_run = n and more than n pending
relevant files (readable, unprocessed, pairwise-distinct keys),
stage00_excel_to_prep processes exactly n files, but no stop AuditRecord is
recorded: the stage emits no audit events at all. -/
theorem stage00_cap_processes_n_no_audit
    (h : List Nat → String) (tr : List Nat → String → List Nat)
    (stamp : Nat → String) (n : Nat) (prepIn inboxDone : String)
    (stateDone : List String) (files : List DbxFile)
    (hcap : n < (files.filter (fun f => isXlsx f.name)).length)
    (hcon : ∀ f ∈ (files.filter (fun f => isXlsx f.name)).take n,
        (f.content).isSome)
    (hfresh : ∀ f ∈ (files.filter (fun f => isXlsx f.name)).take n,
        ∀ raw, f.content = some raw → key00 h f.name raw ∉ stateDone)
    (hnd : (((files.filter (fun f => isXlsx f.name)).take n).map
        (fileKey h)).Nodup) :
    (stage00_excel_to_prep h tr stamp n prepIn inboxDone stateDone
        files).processed = n
    ∧ ∀ a ∈ (stage00_excel_to_prep h tr stamp n prepIn inboxDone stateDone
        files).actions, isAuditAction a = false := by
  have hne : (files.filter (fun f => isXlsx f.name)).isEmpty = false := by
    cases hfe : files.filter (fun f => isXlsx f.name) with
    | nil => rw [hfe] at hcap; simp at hcap
    | cons x xs => simp
  refine ⟨?_, ?_⟩
  · unfold stage00_excel_to_prep
    simp only [hne, Bool.false_eq_true, if_false]
    rw [stage00Loop_processed_count h tr stamp prepIn inboxDone
        ((files.filter (fun f => isXlsx f.name)).take n) 0
        ⟨stateDone.dedup, 0, []⟩ hcon
        (fun f hf raw hraw hmem => hfresh f hf raw hraw (List.mem_dedup.mp hmem))
        hnd]
    simp [List.length_take]
    omega
  · intro a ha
    exact stage00_excel_actions_no_audit h tr stamp n prepIn inboxDone stateDone
      files a ha

/-- Witness for the amended C4 at a concrete input: cap 1, two pending
workbooks, exactly one processed. -/
theorem stage00_cap_processes_n_no_audit_witness :
    (stage00_excel_to_prep hW trW stampW 1 "/P" "/D" [] [fileA, fileB]).processed
      = 1 :=
  (stage00_cap_processes_n_no_audit hW trW stampW 1 "/P" "/D" [] [fileA, fileB]
    (by decide) (by decide)
    (by intro f hf raw hraw; exact List.not_mem_nil _) (by decide)).1

/-- Helper: the last element of an append is the last element of its
nonempty right part. -/
theorem getLast?_append_some {α : Type} (l1 : List α) {l2 : List α} {c : α}
    (h : l2.getLast? = some c) : (l1 ++ l2).getLast? = some c := by
  have hne : l2 ≠ [] := by
    intro hnil
    rw [hnil] at h
    simp at h
  rw [List.getLast?_append_of_ne_nil l1 hne, h]

/-! # C6 -/

/-- C6 counterexample: processing 00_inbox_raw/IN/report.xlsx does not create
prep IN/report.xlsx.  The only write of the pass goes to the decorated name
report__T0__3.prep.json inside the next stage input directory, and no write
at all targets the original unqualified base filename. -/
theorem stage00_forward_original_name_counterexample :
    (stage00_excel_to_prep hW trW stampW 10 "/10_preformat_py/IN"
        "/00_inbox_raw/DONE" [] [fileR]).actions
      = [Act.write "/10_preformat_py/IN/report__T0__3.prep.json" [1, 2],
         Act.move "/00_inbox_raw/IN/report.xlsx" "/00_inbox_raw/DONE/report.xlsx"]
    ∧ ((stage00_excel_to_prep hW trW stampW 10 "/10_preformat_py/IN"
        "/00_inbox_raw/DONE" [] [fileR]).actions.countP
          (writesTo "/10_preformat_py/IN/report.xlsx")) = 0 := by
  decide

/-- C6 (amended): for every file the pass processes, the single output write
goes directly into the next stage input directory under the decorated name
base__timestamp__hash.prep.json — never under the original base filename,
whatever the timestamp and fingerprint are (an .xlsx name cannot equal a
.prep.json name).  The stage10 filter finds the output through its .prep.json
ending, not through the original name. -/
theorem stage00_forward_write_decorated_name (h : List Nat → String)
    (tr : List Nat → String → List Nat) (st : String)
    (prepIn inboxDone : String) (s : LoopState) (f : DbxFile) (raw : List Nat)
    (hc : f.content = some raw) (hk : key00 h f.name raw ∉ s.done)
    (hx : isXlsx f.name = true) :
    (stage00Step h tr st prepIn inboxDone s f).actions
      = s.actions ++
        [Act.write
          (prepIn ++ "/" ++ (rsplitBase f.name ++ "__" ++ st ++ "__" ++ h raw ++ ".prep.json"))
          (tr raw f.name),
         Act.move f.path (moveToDoneDst f.path inboxDone)]
    ∧ prepIn ++ "/" ++ (rsplitBase f.name ++ "__" ++ st ++ "__" ++ h raw ++ ".prep.json")
        ≠ prepIn ++ "/" ++ f.name := by
  constructor
  · simp [stage00Step, hc, hk]
  · intro heq
    have hL : (prepIn ++ "/" ++
        (rsplitBase f.name ++ "__" ++ st ++ "__" ++ h raw ++ ".prep.json")).data.getLast?
        = some 'n' := by
      have hsplit : (prepIn ++ "/" ++
          (rsplitBase f.name ++ "__" ++ st ++ "__" ++ h raw ++ ".prep.json")).data
          = (prepIn ++ "/" ++ (rsplitBase f.name ++ "__" ++ st ++ "__" ++ h raw)).data
            ++ (".prep.json" : String).data := by
        simp [List.append_assoc]
      rw [hsplit]
      exact getLast?_append_some _ (by decide)
    have hsfx : (".xlsx" : String).toList <:+ (pyLower f.name).toList := by
      have hx2 := hx
      simp only [isXlsx, pyEndsWith, List.isSuffixOf_iff_suffix] at hx2
      exact hx2
    obtain ⟨t, ht⟩ := hsfx
    have hnamelast : (List.map Char.toLower f.name.data).getLast? = some 'x' := by
      have hpy : (pyLower f.name).toList = List.map Char.toLower f.name.data := rfl
      rw [hpy] at ht
      rw [← ht]
      exact getLast?_append_some _ (by decide)
    have hRlast : (List.map Char.toLower (prepIn ++ "/" ++ f.name).data).getLast?
        = some 'x' := by
      have hdr : (prepIn ++ "/" ++ f.name).data = (prepIn ++ "/").data ++ f.name.data :=
        rfl
      rw [hdr, List.map_append]
      exact getLast?_append_some _ hnamelast
    have hLlast : (List.map Char.toLower (prepIn ++ "/" ++
        (rsplitBase f.name ++ "__" ++ st ++ "__" ++ h raw ++ ".prep.json")).data).getLast?
        = some 'n' := by
      rw [List.getLast?_map, hL]
      decide
    have hcontra := congrArg
      (fun str => (List.map Char.toLower str.data).getLast?) heq
    simp only [hLlast, hRlast] at hcontra
    exact absurd hcontra (by decide)

/-- Witness for the amended C6 at a concrete input. -/
theorem stage00_forward_write_decorated_name_witness :
    (stage00Step hW trW "T0" "/10_preformat_py/IN" "/00_inbox_raw/DONE"
        ⟨[], 0, []⟩ fileR).actions
      = ([] : List Act) ++
        [Act.write
          ("/10_preformat_py/IN" ++ "/" ++ (rsplitBase "report.xlsx" ++ "__" ++ "T0" ++ "__" ++ hW [1, 2] ++ ".prep.json"))
          (trW [1, 2] "report.xlsx"),
         Act.move "/00_inbox_raw/IN/report.xlsx"
           (moveToDoneDst "/00_inbox_raw/IN/report.xlsx" "/00_inbox_raw/DONE")]
    ∧ "/10_preformat_py/IN" ++ "/" ++ (rsplitBase "report.xlsx" ++ "__" ++ "T0" ++ "__" ++ hW [1, 2] ++ ".prep.json")
        ≠ "/10_preformat_py/IN" ++ "/" ++ "report.xlsx" :=
  stage00_forward_write_decorated_name hW trW "T0" "/10_preformat_py/IN"
    "/00_inbox_raw/DONE" ⟨[], 0, []⟩ fileR [1, 2] rfl (by decide) (by decide)

/-! # C7 -/

/-- C7 counterexample: two attempts on the same input path with different
content (hence different fingerprints) are both moved to exactly the same
done destination, the unchanged base filename — the destination embeds no
revision or hash, so repeated attempts silently collide (the source even
passes overwrite=True to the move). -/
theorem stage00_done_name_no_hash_counterexample :
    hW [1] ≠ hW [2]
    ∧ ((stage00_excel_to_prep hW trW stampW 10 "/10/IN" "/00_inbox_raw/DONE" []
          [fileC1]).actions.countP
        (fun a => a == Act.move "/00_inbox_raw/IN/report.xlsx"
          "/00_inbox_raw/DONE/report.xlsx")) = 1
    ∧ ((stage00_excel_to_prep hW trW stampW 10 "/10/IN" "/00_inbox_raw/DONE" []
          [fileC2]).actions.countP
        (fun a => a == Act.move "/00_inbox_raw/IN/report.xlsx"
          "/00_inbox_raw/DONE/report.xlsx")) = 1 := by
  decide

/-- C7 (amended): in the multistage pipeline the move of the processed
original into the done directory uses _move_to_done, whose destination is
the done directory joined with the unchanged base component of the source
path — it embeds no revision or hash, and is identical for any two contents
of the same path (only the separate src/stages/stage00.py runner decorates
its done names with rev and timestamp). -/
theorem stage00_move_done_plain_basename (h : List Nat → String)
    (tr : List Nat → String → List Nat) (st1 st2 : String)
    (prepIn inboxDone : String) (s : LoopState) (f : DbxFile)
    (raw1 raw2 : List Nat)
    (hk1 : key00 h f.name raw1 ∉ s.done) (hk2 : key00 h f.name raw2 ∉ s.done) :
    moveToDoneDst f.path inboxDone = inboxDone ++ "/" ++ lastComponent f.path
    ∧ (stage00Step h tr st1 prepIn inboxDone s
        { f with content := some raw1 }).actions.getLast?
      = some (Act.move f.path (moveToDoneDst f.path inboxDone))
    ∧ (stage00Step h tr st2 prepIn inboxDone s
        { f with content := some raw2 }).actions.getLast?
      = some (Act.move f.path (moveToDoneDst f.path inboxDone)) := by
  refine ⟨rfl, ?_, ?_⟩
  · simp only [stage00Step, hk1, if_false]
    exact getLast?_append_some _ rfl
  · simp only [stage00Step, hk2, if_false]
    exact getLast?_append_some _ rfl

/-- Witness for the amended C7 at a concrete input: the same workbook path
with contents [1] and [2] lands on the same done destination. -/
theorem stage00_move_done_plain_basename_witness :
    moveToDoneDst "/00_inbox_raw/IN/report.xlsx" "/00_inbox_raw/DONE"
      = "/00_inbox_raw/DONE" ++ "/" ++ lastComponent "/00_inbox_raw/IN/report.xlsx"
    ∧ (stage00Step hW trW "T1" "/P" "/00_inbox_raw/DONE" ⟨[], 0, []⟩
        { fileR with content := some [1] }).actions.getLast?
      = some (Act.move "/00_inbox_raw/IN/report.xlsx"
          (moveToDoneDst "/00_inbox_raw/IN/report.xlsx" "/00_inbox_raw/DONE"))
    ∧ (stage00Step hW trW "T2" "/P" "/00_inbox_raw/DONE" ⟨[], 0, []⟩
        { fileR with content := some [2] }).actions.getLast?
      = some (Act.move "/00_inbox_raw/IN/report.xlsx"
          (moveToDoneDst "/00_inbox_raw/IN/report.xlsx" "/00_inbox_raw/DONE")) :=
  stage00_move_done_plain_basename hW trW "T1" "T2" "/P" "/00_inbox_raw/DONE"
    ⟨[], 0, []⟩ fileR [1] [2] (by decide) (by decide)

/-! # C3 -/

/-- C3 counterexample: a batch of two files where the first fails during its
copy step.  run records one stage00_error AuditRecord and returns 1
immediately: the second (good) file is neither processed nor moved — no
stage00_processed record and no move at all appear — so a single bad file
does abort the whole stage pass instead of being skipped. -/
theorem stage00_run_error_abort_counterexample :
    (stage00run envBad stampW).2 = 1
    ∧ ((stage00run envBad stampW).1.countP (isAuditEvent "stage00_error")) = 1
    ∧ ((stage00run envBad stampW).1.countP (isAuditEvent "stage00_processed")) = 0
    ∧ ((stage00run envBad stampW).1.countP (movesFrom "/00/IN/a.xlsx")) = 0
    ∧ ((stage00run envBad stampW).1.countP (movesFrom "/00/IN/b.xlsx")) = 0 := by
  decide

/-- C3 (amended): when the per-file loop reaches a file whose copy or move
raises, it records exactly one error AuditRecord for that file, performs no
move of it (the file stays in its input directory and is retried next run),
and returns 1 at once: the resulting trace is independent of every file
after the failing one, which are left unprocessed. -/
theorem stage00_run_error_records_and_aborts
    (outP doneP : String) (stamp : Nat → String) (post : List StageFile)
    (fbad : StageFile) (m : String) (i processed : Nat) (acc : List Act)
    (hbad : fbad.op = FileOp.failCopy m ∨ fbad.op = FileOp.failMove m)
    (hacc : ∀ a ∈ acc, movesFrom fbad.pathDisplay a = false) :
    (stage00RunLoop outP doneP stamp (fbad :: post) i processed acc
        = stage00RunLoop outP doneP stamp [fbad] i processed acc)
    ∧ (stage00RunLoop outP doneP stamp (fbad :: post) i processed acc).2 = 1
    ∧ ((stage00RunLoop outP doneP stamp (fbad :: post) i processed acc).1.countP
          (isAuditEvent "stage00_error"))
        = (acc.countP (isAuditEvent "stage00_error")) + 1
    ∧ ∀ a ∈ (stage00RunLoop outP doneP stamp (fbad :: post) i processed acc).1,
        movesFrom fbad.pathDisplay a = false := by
  rcases hbad with hb | hb
  · simp only [stage00RunLoop, hb]
    refine ⟨trivial, trivial, ?_, ?_⟩
    · rw [List.countP_append]
      simp [isAuditEvent]
    · intro a ha
      rcases List.mem_append.mp ha with h1 | h1
      · exact hacc a h1
      · simp at h1
        subst h1
        simp [movesFrom]
  · simp only [stage00RunLoop, hb]
    refine ⟨trivial, trivial, ?_, ?_⟩
    · rw [List.countP_append]
      simp [isAuditEvent]
    · intro a ha
      rcases List.mem_append.mp ha with h1 | h1
      · exact hacc a h1
      · simp at h1
        rcases h1 with h1 | h1 <;> subst h1 <;> simp [movesFrom]

/-- Witness for the amended C3 at a concrete input: the failing file followed
by one good file; the trace equals the trace with the good file absent and
the return value is 1. -/
theorem stage00_run_error_records_and_aborts_witness :
    (stage00RunLoop "/00/OUT" "/00/DONE" stampW
        [⟨"/00/IN/a.xlsx", "r1", FileOp.failCopy "ApiError: boom"⟩,
         ⟨"/00/IN/b.xlsx", "r2", FileOp.ok⟩] 1 0 []
      = stage00RunLoop "/00/OUT" "/00/DONE" stampW
          [⟨"/00/IN/a.xlsx", "r1", FileOp.failCopy "ApiError: boom"⟩] 1 0 [])
    ∧ (stage00RunLoop "/00/OUT" "/00/DONE" stampW
        [⟨"/00/IN/a.xlsx", "r1", FileOp.failCopy "ApiError: boom"⟩,
         ⟨"/00/IN/b.xlsx", "r2", FileOp.ok⟩] 1 0 []).2 = 1 :=
  ⟨(stage00_run_error_records_and_aborts "/00/OUT" "/00/DONE" stampW
      [⟨"/00/IN/b.xlsx", "r2", FileOp.ok⟩]
      ⟨"/00/IN/a.xlsx", "r1", FileOp.failCopy "ApiError: boom"⟩ "ApiError: boom"
      1 0 [] (Or.inl rfl) (fun a ha => absurd ha (List.not_mem_nil a))).1,
   (stage00_run_error_records_and_aborts "/00/OUT" "/00/DONE" stampW
      [⟨"/00/IN/b.xlsx", "r2", FileOp.ok⟩]
      ⟨"/00/IN/a.xlsx", "r1", FileOp.failCopy "ApiError: boom"⟩ "ApiError: boom"
      1 0 [] (Or.inl rfl) (fun a ha => absurd ha (List.not_mem_nil a))).2.1⟩

/-! # C5 -/

/-- C5 counterexample: with the Dropbox client constructed successfully, a
per-file failure makes the dispatched stage00 run return 1, and main
propagates that as the process exit code; a stage module without a callable
entrypoint also exits 1.  Both contradict the claim that a non-zero exit
occurs only when the Blob Store client could not be constructed and that
per-file failures never change the exit code. -/
theorem main_nonzero_exit_counterexample :
    (stage00run envBad stampW).2 = 1
    ∧ mainExit true (ModuleLookup.found (StageOutcome.retInt
        ((stage00run envBad stampW).2))) = 1
    ∧ mainExit true ModuleLookup.foundNoCallable = 1 := by
  decide

/-- C5 (amended): main exits 0 on normal completion — including nothing to
do (no stage module found) and a stage returning 0 or a non-int — and exits
1 when the Dropbox client cannot be constructed; but it also exits 1 when
the stage module has no callable entrypoint or the stage raises, propagates
the stage entrypoint's integer return code (so a per-file failure that makes
the stage return non-zero does change the exit code), and propagates a
SystemExit code. -/
theorem main_exit_code_characterisation (l : ModuleLookup) (n : Int) :
    mainExit false l = 1
    ∧ mainExit true ModuleLookup.notFound = 0
    ∧ mainExit true (ModuleLookup.found StageOutcome.retOther) = 0
    ∧ mainExit true (ModuleLookup.found (StageOutcome.retInt 0)) = 0
    ∧ mainExit true ModuleLookup.foundNoCallable = 1
    ∧ mainExit true (ModuleLookup.found StageOutcome.raises) = 1
    ∧ mainExit true (ModuleLookup.found (StageOutcome.retInt n)) = n
    ∧ mainExit true (ModuleLookup.found (StageOutcome.sysExit n)) = n := by
  refine ⟨?_, rfl, rfl, rfl, rfl, rfl, rfl, rfl⟩
  rfl

/-! # C8 -/

/-- C8 counterexample: a failing store write makes AuditLogger.flush
propagate the exception to its caller (the Except.error result); the
buffered lines are not emitted anywhere. -/
theorem audit_flush_propagates_counterexample :
    auditLoggerFlush "/_system/logs" "gh-1-1" [⟨"00", "list", "n=1"⟩] false
      = Except.error "write_file_bytes failed"
    ∧ (auditLoggerFlush "/_system/logs" "gh-1-1" [⟨"00", "list", "n=1"⟩]
        false).isOk = false := by
  exact ⟨rfl, rfl⟩

/-- C8 (amended): the three flush paths behave differently.
AuditLogger.flush propagates a write failure to its caller with no fallback;
StateStore.flush_audit_jsonl never raises and swallows the failure by
appending an in-memory error record (no stdout); only the Run Driver's
write_audit_record path returns none on failure, upon which main emits the
warning line and every buffered event line to standard output. -/
theorem audit_flush_fallback_characterisation (logsDir runId : String)
    (buffer audit events : List AuditEvt) :
    auditLoggerFlush logsDir runId buffer false
        = Except.error "write_file_bytes failed"
    ∧ (flushAuditJsonl logsDir runId audit false).1 = []
    ∧ (flushAuditJsonl logsDir runId audit false).2.1
        = audit ++ [⟨"--", "error", "audit_flush_failed"⟩]
    ∧ (flushAuditJsonl logsDir runId audit false).2.2
        = rstripSlash logsDir ++ "/monthly_audit_" ++ runId ++ ".jsonl"
    ∧ writeAuditRecord logsDir runId false = none
    ∧ auditFallbackStdout events none
        = "[warn] write_audit_record failed; fallback to stdout" ::
            events.map evtJson := by
  refine ⟨rfl, rfl, rfl, rfl, ?_, rfl⟩
  by_cases hld : logsDir = "" <;> simp [writeAuditRecord, hld]

/-! # C10 -/

/-- C10: when the stage id (cfg.stage, defaulted to 00 when empty, then
stripped) is none of 00, 10 and 20, run_switch_stage dispatches nothing and
returns 0, while still ensuring the thirteen stage directories, loading the
state document, and saving it back, in that order, whatever the stage
functions would have done. -/
theorem run_switch_stage_unknown_stage_noop (cfg : MCfg)
    (runStage : String → List TopAct × Nat)
    (h00 : pyStrip (if cfg.stage = "" then "00" else cfg.stage) ≠ "00")
    (h10 : pyStrip (if cfg.stage = "" then "00" else cfg.stage) ≠ "10")
    (h20 : pyStrip (if cfg.stage = "" then "00" else cfg.stage) ≠ "20") :
    runSwitchStage cfg runStage
      = ((ensureDirsList cfg).map TopAct.ensureFolder
          ++ [TopAct.loadState cfg.statePath, TopAct.saveState cfg.statePath],
         0) := by
  simp [runSwitchStage, h00, h10, h20]

/-- Witness for C10 at a concrete input: stage 99, with a runStage stand-in
that would have produced visible work had it been dispatched. -/
theorem run_switch_stage_unknown_stage_noop_witness :
    runSwitchStage
        ⟨"99", "/00_inbox_raw", "/10_preformat_py", "/20_overview_api",
         "/30_personalize_py", "/_system/state.json", "/_system/logs"⟩
        (fun _ => ([TopAct.loadState "/unexpected"], 7))
      = ((ensureDirsList
            ⟨"99", "/00_inbox_raw", "/10_preformat_py", "/20_overview_api",
             "/30_personalize_py", "/_system/state.json", "/_system/logs"⟩).map
            TopAct.ensureFolder
          ++ [TopAct.loadState "/_system/state.json",
              TopAct.saveState "/_system/state.json"],
         0) :=
  run_switch_stage_unknown_stage_noop
    ⟨"99", "/00_inbox_raw", "/10_preformat_py", "/20_overview_api",
     "/30_personalize_py", "/_system/state.json", "/_system/logs"⟩
    (fun _ => ([TopAct.loadState "/unexpected"], 7))
    (by decide) (by decide) (by decide)
